import Mathlib

/-!
Shallow embedding of the interactions-service (src/main.py): a single-table
CRUD service over `Interaction` records, with four HTTP operations
(create, filtered list, update feedback, mark processed).

The database table is modelled as a `List Interaction` in storage order;
an insert appends a row at the end.  SQL `SELECT ... .first()` is
`List.find?`, a filtered `SELECT` is `List.filter`, and an
`UPDATE ... WHERE id = ... RETURNING` is a `List.map` that rewrites the
matching rows followed by `List.find?` on the result.  `HTTPException`
carries the status code and detail string exactly as raised by the code.

`uuid.uuid4()` consumes 128 random bits, forces the version nibble to `4`
and the top two bits of the variant nibble to `10`, and renders the 32 hex
nibbles in the hyphenated 8-4-4-4-12 textual form.  We model the random
input as a natural number `rand` and keep the masking and the rendering
faithful, so that non-emptiness of the id is a theorem and distinctness of
ids follows from distinctness of the masked random draws.
-/

namespace InteractionsService

/-- Lower-case hex digit for a nibble, as used by the textual UUID form. -/
def hexChar : Nat → Char
  | 0 => '0'
  | 1 => '1'
  | 2 => '2'
  | 3 => '3'
  | 4 => '4'
  | 5 => '5'
  | 6 => '6'
  | 7 => '7'
  | 8 => '8'
  | 9 => '9'
  | 10 => 'a'
  | 11 => 'b'
  | 12 => 'c'
  | 13 => 'd'
  | 14 => 'e'
  | _ => 'f'

/-- The 32 hex nibbles (big-endian) of a version-4 UUID built from the 128
random bits of `rand`: nibble 12 is the version `4`, nibble 16 keeps only
its low two bits and gets `10` as its top two bits (RFC 4122 variant). -/
def uuid4Nibbles (rand : Nat) : List Nat :=
  (List.range 32).map (fun i =>
    if i = 12 then 4
    else if i = 16 then 8 + rand / 16 ^ (31 - i) % 16 % 4
    else rand / 16 ^ (31 - i) % 16)

/-- The character list of `str(uuid.uuid4())`: the 32 nibbles rendered in
hex, grouped 8-4-4-4-12 with hyphens. -/
def uuid4Chars (rand : Nat) : List Char :=
  let ns := uuid4Nibbles rand
  (ns.take 8).map hexChar
    ++ '-' :: ((ns.drop 8).take 4).map hexChar
    ++ '-' :: (((ns.drop 8).drop 4).take 4).map hexChar
    ++ '-' :: ((((ns.drop 8).drop 4).drop 4).take 4).map hexChar
    ++ '-' :: ((((ns.drop 8).drop 4).drop 4).drop 4).map hexChar

/-- The textual form of a freshly generated version-4 UUID. -/
def uuid4String (rand : Nat) : String :=
  ⟨uuid4Chars rand⟩

/-- One row of the `interactions` table (section 3 of the schema in
src/main.py, lines 17-25).  `timestamp` is an abstract UTC instant. -/
structure Interaction where
  interaction_id : String
  user_query : String
  bot_response : String
  feedback : Int
  timestamp : Nat
  processed_for_training : Bool
deriving Repr, DecidableEq

/-- The error raised by the endpoints, with status code and detail. -/
structure HTTPException where
  status_code : Nat
  detail : String
deriving Repr, DecidableEq

/-- An endpoint outcome: either an `Interaction` body or an `HTTPException`. -/
abbrev Response := Except HTTPException Interaction

/-- The `WHERE interactions.c.interaction_id == interaction_id` predicate. -/
def matchesId (interaction_id : String) (rec : Interaction) : Bool :=
  rec.interaction_id == interaction_id

/-- POST /interactions (src/main.py, create_interaction, lines 54-74):
generates the id from the random draw `rand`, inserts the row with the
caller-supplied strings, `timestamp = now`, and the column defaults
`feedback = 0` and `processed_for_training = false`, then reads the row
back by id with `.first()`; a missing read-back raises a 500.  Returns the
response together with the table state after the call.  `newRow` is the
row built and inserted by `create_interaction`. -/
def newRow (user_query bot_response : String) (rand now : Nat) : Interaction :=
  { interaction_id := uuid4String rand
    user_query := user_query
    bot_response := bot_response
    feedback := 0
    timestamp := now
    processed_for_training := false }

def create_interaction (db : List Interaction) (user_query bot_response : String)
    (rand now : Nat) : Response × List Interaction :=
  let row := newRow user_query bot_response rand now
  let db2 := db ++ [row]
  match db2.find? (matchesId row.interaction_id) with
  | some result => (.ok result, db2)
  | none => (.error ⟨500, "Failed to create or retrieve interaction."⟩, db2)

/-- GET /interactions (src/main.py, get_interactions, lines 77-88): starts
from the full select and conjoins one exact-match WHERE clause per present
optional parameter. -/
def get_interactions (db : List Interaction) (feedback : Option Int)
    (processed_for_training : Option Bool) : List Interaction :=
  let query := db
  let query := match feedback with
    | some f => query.filter (fun rec => rec.feedback == f)
    | none => query
  let query := match processed_for_training with
    | some b => query.filter (fun rec => rec.processed_for_training == b)
    | none => query
  query

/-- PATCH /interactions/\x7bid\x7d/feedback (src/main.py, update_feedback,
lines 90-104): UPDATE ... WHERE id matches SET feedback, RETURNING the
updated rows, `.first()`; no matching row raises a 404. -/
def update_feedback (db : List Interaction) (interaction_id : String)
    (feedback_score : Int) : Response × List Interaction :=
  let db2 := db.map (fun rec =>
    if rec.interaction_id == interaction_id then
      { rec with feedback := feedback_score }
    else rec)
  match db2.find? (matchesId interaction_id) with
  | some result => (.ok result, db2)
  | none => (.error ⟨404, "Interaction not found."⟩, db2)

/-- PATCH /interactions/\x7bid\x7d/processed (src/main.py, mark_as_processed,
lines 106-120): same shape as update_feedback but sets
processed_for_training. -/
def mark_as_processed (db : List Interaction) (interaction_id : String)
    (processed_for_training : Bool) : Response × List Interaction :=
  let db2 := db.map (fun rec =>
    if rec.interaction_id == interaction_id then
      { rec with processed_for_training := processed_for_training }
    else rec)
  match db2.find? (matchesId interaction_id) with
  | some result => (.ok result, db2)
  | none => (.error ⟨404, "Interaction not found."⟩, db2)

/-- One API call, with all server-side inputs (random draw, clock) made
explicit. -/
inductive Op where
  | create (user_query bot_response : String) (rand now : Nat)
  | list (feedback : Option Int) (processed_for_training : Option Bool)
  | updateFeedback (interaction_id : String) (feedback_score : Int)
  | markProcessed (interaction_id : String) (processed_for_training : Bool)
deriving Repr, DecidableEq

/-- The table state after one API call. -/
def applyOp (db : List Interaction) : Op → List Interaction
  | .create user_query bot_response rand now =>
      (create_interaction db user_query bot_response rand now).2
  | .list _ _ => db
  | .updateFeedback interaction_id feedback_score =>
      (update_feedback db interaction_id feedback_score).2
  | .markProcessed interaction_id processed_for_training =>
      (mark_as_processed db interaction_id processed_for_training).2

/-- The table state after a sequence of API calls. -/
def applyOps (db : List Interaction) (ops : List Op) : List Interaction :=
  ops.foldl applyOp db

/-! Helper lemmas about the UUID model. -/

lemma hexChar_ne_dash_fin : ∀ n : Fin 16, hexChar n.val ≠ '-' := by decide

lemma hexChar_inj_fin : ∀ a b : Fin 16, hexChar a.val = hexChar b.val → a = b := by decide

lemma hexChar_ne_dash {n : Nat} (h : n < 16) : hexChar n ≠ '-' :=
  hexChar_ne_dash_fin ⟨n, h⟩

lemma hexChar_inj {a b : Nat} (ha : a < 16) (hb : b < 16)
    (h : hexChar a = hexChar b) : a = b :=
  congrArg Fin.val (hexChar_inj_fin ⟨a, ha⟩ ⟨b, hb⟩ h)

lemma uuid4Nibbles_lt (rand : Nat) : ∀ n ∈ uuid4Nibbles rand, n < 16 := by
  intro n hn
  simp only [uuid4Nibbles, List.mem_map, List.mem_range] at hn
  obtain ⟨i, _, hEq⟩ := hn
  subst hEq
  by_cases h12 : i = 12 <;> by_cases h16 : i = 16 <;> simp [h12, h16] <;> omega

lemma filter_ne_dash_map_hexChar :
    ∀ l : List Nat, (∀ n ∈ l, n < 16) →
      (l.map hexChar).filter (fun c => c != '-') = l.map hexChar := by
  intro l
  induction l with
  | nil => intro _; rfl
  | cons a t ih =>
    intro h
    have ha : hexChar a ≠ '-' := hexChar_ne_dash (h a (by simp))
    have ht := ih (fun n hn => h n (List.mem_cons_of_mem a hn))
    simp only [List.map_cons, List.filter_cons]
    rw [if_pos (by simpa using ha), ht]

lemma segments_reassemble (ns : List Nat) :
    ns.take 8 ++ ((ns.drop 8).take 4 ++ (((ns.drop 8).drop 4).take 4 ++
      ((((ns.drop 8).drop 4).drop 4).take 4 ++ (((ns.drop 8).drop 4).drop 4).drop 4))) = ns := by
  rw [List.take_append_drop, List.take_append_drop, List.take_append_drop,
    List.take_append_drop]

lemma stripDashes_uuid4Chars (rand : Nat) :
    (uuid4Chars rand).filter (fun c => c != '-') =
      (uuid4Nibbles rand).map hexChar := by
  have hlt := uuid4Nibbles_lt rand
  have h1 := filter_ne_dash_map_hexChar ((uuid4Nibbles rand).take 8)
    (fun n hn => hlt n ((List.take_sublist _ _).mem hn))
  have h2 := filter_ne_dash_map_hexChar (((uuid4Nibbles rand).drop 8).take 4)
    (fun n hn => hlt n ((List.drop_sublist _ _).mem ((List.take_sublist _ _).mem hn)))
  have h3 := filter_ne_dash_map_hexChar ((((uuid4Nibbles rand).drop 8).drop 4).take 4)
    (fun n hn => hlt n ((List.drop_sublist _ _).mem ((List.drop_sublist _ _).mem
      ((List.take_sublist _ _).mem hn))))
  have h4 := filter_ne_dash_map_hexChar (((((uuid4Nibbles rand).drop 8).drop 4).drop 4).take 4)
    (fun n hn => hlt n ((List.drop_sublist _ _).mem ((List.drop_sublist _ _).mem
      ((List.drop_sublist _ _).mem ((List.take_sublist _ _).mem hn)))))
  have h5 := filter_ne_dash_map_hexChar (((((uuid4Nibbles rand).drop 8).drop 4).drop 4).drop 4)
    (fun n hn => hlt n ((List.drop_sublist _ _).mem ((List.drop_sublist _ _).mem
      ((List.drop_sublist _ _).mem ((List.drop_sublist _ _).mem hn)))))
  have hd : (('-' : Char) != '-') = false := by simp
  simp only [uuid4Chars, List.filter_append, List.filter_cons, hd, Bool.false_eq_true,
    if_false]
  rw [h1, h2, h3, h4, h5]
  simp only [← List.map_append, List.append_assoc]
  rw [segments_reassemble]

lemma map_hexChar_inj :
    ∀ l₁ l₂ : List Nat, (∀ n ∈ l₁, n < 16) → (∀ n ∈ l₂, n < 16) →
      l₁.map hexChar = l₂.map hexChar → l₁ = l₂ := by
  intro l₁
  induction l₁ with
  | nil =>
    intro l₂ _ _ h
    cases l₂ with
    | nil => rfl
    | cons b u => simp at h
  | cons a t ih =>
    intro l₂ h₁ h₂ h
    cases l₂ with
    | nil => simp at h
    | cons b u =>
      simp only [List.map_cons, List.cons.injEq] at h
      have hab := hexChar_inj (h₁ a (by simp)) (h₂ b (by simp)) h.1
      have htu := ih u (fun n hn => h₁ n (List.mem_cons_of_mem a hn))
        (fun n hn => h₂ n (List.mem_cons_of_mem b hn)) h.2
      rw [hab, htu]

lemma uuid4String_inj {r₁ r₂ : Nat} (h : uuid4String r₁ = uuid4String r₂) :
    uuid4Nibbles r₁ = uuid4Nibbles r₂ := by
  have hc : uuid4Chars r₁ = uuid4Chars r₂ := congrArg String.data h
  have h₁ := stripDashes_uuid4Chars r₁
  rw [hc, stripDashes_uuid4Chars r₂] at h₁
  exact map_hexChar_inj _ _ (uuid4Nibbles_lt r₂) (uuid4Nibbles_lt r₁) h₁ |>.symm

lemma uuid4Chars_ne_nil (rand : Nat) : uuid4Chars rand ≠ [] := by
  simp only [uuid4Chars]
  intro h
  rcases List.append_eq_nil.mp h with ⟨_, h2⟩
  exact List.cons_ne_nil _ _ h2

lemma uuid4String_ne_empty (rand : Nat) : uuid4String rand ≠ "" := by
  intro h
  exact uuid4Chars_ne_nil rand (congrArg String.data h)

/-! Helper lemmas about the table operations. -/

lemma find?_matchesId_map (interaction_id : String) (f : Interaction → Interaction)
    (hf : ∀ rec, (f rec).interaction_id = rec.interaction_id) :
    ∀ db : List Interaction,
      (db.map f).find? (matchesId interaction_id) =
        (db.find? (matchesId interaction_id)).map f := by
  intro db
  induction db with
  | nil => rfl
  | cons a t ih =>
    by_cases h : matchesId interaction_id a = true
    · have hfa : matchesId interaction_id (f a) = true := by
        simpa [matchesId, hf] using h
      rw [List.map_cons, List.find?_cons_of_pos _ hfa, List.find?_cons_of_pos _ h]
      rfl
    · have hfa : ¬matchesId interaction_id (f a) = true := by
        simpa [matchesId, hf] using h
      rw [List.map_cons, List.find?_cons_of_neg _ hfa, List.find?_cons_of_neg _ h, ih]

lemma find?_matchesId_eq_none {db : List Interaction} {interaction_id : String}
    (h : interaction_id ∉ db.map Interaction.interaction_id) :
    db.find? (matchesId interaction_id) = none := by
  rw [List.find?_eq_none]
  intro rec hrec hm
  exact h (List.mem_map.mpr ⟨rec, hrec, by simpa [matchesId] using hm⟩)

lemma map_eq_self_of_find?_none (interaction_id : String) (f : Interaction → Interaction)
    (hf : ∀ rec, (rec.interaction_id == interaction_id) = false → f rec = rec) :
    ∀ db : List Interaction, db.find? (matchesId interaction_id) = none → db.map f = db := by
  intro db
  induction db with
  | nil => intro _; rfl
  | cons a t ih =>
    intro h
    have ha := List.find?_eq_none.mp h a (by simp)
    have ht : t.find? (matchesId interaction_id) = none := by
      rw [List.find?_eq_none]
      exact fun x hx => List.find?_eq_none.mp h x (List.mem_cons_of_mem a hx)
    rw [List.map_cons, hf a (by simpa [matchesId] using ha), ih ht]

lemma newRow_interaction_id (user_query bot_response : String) (rand now : Nat) :
    (newRow user_query bot_response rand now).interaction_id = uuid4String rand := rfl

lemma create_interaction_snd (db : List Interaction) (user_query bot_response : String)
    (rand now : Nat) :
    (create_interaction db user_query bot_response rand now).2 =
      db ++ [newRow user_query bot_response rand now] := by
  simp only [create_interaction]
  split <;> rfl

lemma create_interaction_fresh (db : List Interaction) (user_query bot_response : String)
    (rand now : Nat) (hfresh : uuid4String rand ∉ db.map Interaction.interaction_id) :
    create_interaction db user_query bot_response rand now =
      (.ok (newRow user_query bot_response rand now),
        db ++ [newRow user_query bot_response rand now]) := by
  have hnone := find?_matchesId_eq_none hfresh
  have hrow : matchesId (uuid4String rand)
      (newRow user_query bot_response rand now) = true := by
    simp [matchesId, newRow]
  simp only [create_interaction, newRow_interaction_id]
  rw [List.find?_append, hnone, Option.none_or, List.find?_cons_of_pos _ hrow]

lemma update_feedback_snd (db : List Interaction) (interaction_id : String)
    (feedback_score : Int) :
    (update_feedback db interaction_id feedback_score).2 =
      db.map (fun rec => if rec.interaction_id == interaction_id then
        { rec with feedback := feedback_score } else rec) := by
  simp only [update_feedback]
  split <;> rfl

lemma mark_as_processed_snd (db : List Interaction) (interaction_id : String)
    (processed_for_training : Bool) :
    (mark_as_processed db interaction_id processed_for_training).2 =
      db.map (fun rec => if rec.interaction_id == interaction_id then
        { rec with processed_for_training := processed_for_training } else rec) := by
  simp only [mark_as_processed]
  split <;> rfl

lemma update_feedback_found (db : List Interaction) (interaction_id : String)
    (feedback_score : Int) (old : Interaction)
    (hfind : db.find? (matchesId interaction_id) = some old) :
    update_feedback db interaction_id feedback_score =
      (.ok { old with feedback := feedback_score },
        db.map (fun rec => if rec.interaction_id == interaction_id then
          { rec with feedback := feedback_score } else rec)) := by
  have hf : ∀ r : Interaction,
      ((if r.interaction_id == interaction_id then
        { r with feedback := feedback_score } else r) : Interaction).interaction_id =
        r.interaction_id := by
    intro r
    by_cases h : r.interaction_id == interaction_id <;> simp [h]
  have hmap := find?_matchesId_map interaction_id _ hf db
  have hold := List.find?_some hfind
  simp only [matchesId] at hold
  have holdEq : old.interaction_id = interaction_id := by simpa using hold
  simp only [update_feedback]
  rw [hmap, hfind]
  simp [holdEq]

lemma mark_as_processed_found (db : List Interaction) (interaction_id : String)
    (processed_for_training : Bool) (old : Interaction)
    (hfind : db.find? (matchesId interaction_id) = some old) :
    mark_as_processed db interaction_id processed_for_training =
      (.ok { old with processed_for_training := processed_for_training },
        db.map (fun rec => if rec.interaction_id == interaction_id then
          { rec with processed_for_training := processed_for_training } else rec)) := by
  have hf : ∀ r : Interaction,
      ((if r.interaction_id == interaction_id then
        { r with processed_for_training := processed_for_training } else r) :
        Interaction).interaction_id = r.interaction_id := by
    intro r
    by_cases h : r.interaction_id == interaction_id <;> simp [h]
  have hmap := find?_matchesId_map interaction_id _ hf db
  have hold := List.find?_some hfind
  simp only [matchesId] at hold
  have holdEq : old.interaction_id = interaction_id := by simpa using hold
  simp only [mark_as_processed]
  rw [hmap, hfind]
  simp [holdEq]

/-- A concrete stored record used to instantiate the theorems. -/
def sampleRow : Interaction :=
  { interaction_id := "a"
    user_query := "q"
    bot_response := "r"
    feedback := 1
    timestamp := 7
    processed_for_training := false }

/-- C5: with both filters absent, the list operation returns exactly the
stored table, every record exactly once in storage order, and an empty
table yields an empty successful result rather than an error. -/
theorem list_no_filters_returns_all (db : List Interaction) :
    get_interactions db none none = db := rfl

/-- C2: a record is returned by the list operation exactly when it is in
the table and satisfies every present exact-match filter; each present
filter is conjoined, and an absent filter imposes no constraint. -/
theorem get_interactions_exact_match_conjunction (db : List Interaction)
    (feedback : Option Int) (processed_for_training : Option Bool)
    (rec : Interaction) :
    rec ∈ get_interactions db feedback processed_for_training ↔
      rec ∈ db ∧ (∀ f, feedback = some f → rec.feedback = f) ∧
        (∀ b, processed_for_training = some b → rec.processed_for_training = b) := by
  cases feedback <;> cases processed_for_training <;>
    (simp [get_interactions, List.mem_filter, and_assoc]; try tauto)

/-- C8: the feedback=0 filter is a real filter, distinct from the absent
filter: it returns exactly the records whose feedback is 0, and on a table
holding a record with nonzero feedback its result differs from the
unfiltered listing. -/
theorem feedback_zero_filter_differs_from_absent :
    (∀ db : List Interaction,
      get_interactions db (some 0) none =
        db.filter (fun rec => rec.feedback == 0)) ∧
    ∃ db : List Interaction,
      get_interactions db (some 0) none ≠ get_interactions db none none := by
  refine ⟨fun db => rfl, ⟨[sampleRow], ?_⟩⟩
  decide

/-- C3: updating feedback on an existing id returns the stored record with
only its feedback field replaced by the new score; interaction_id,
user_query, bot_response, timestamp and processed_for_training are
unchanged. -/
theorem update_feedback_changes_only_feedback (db : List Interaction)
    (interaction_id : String) (feedback_score : Int) (old : Interaction)
    (hfind : db.find? (matchesId interaction_id) = some old) :
    ∃ rec : Interaction,
      (update_feedback db interaction_id feedback_score).1 = .ok rec ∧
      rec.feedback = feedback_score ∧
      rec.interaction_id = old.interaction_id ∧
      rec.user_query = old.user_query ∧
      rec.bot_response = old.bot_response ∧
      rec.timestamp = old.timestamp ∧
      rec.processed_for_training = old.processed_for_training := by
  refine ⟨{ old with feedback := feedback_score }, ?_, rfl, rfl, rfl, rfl, rfl, rfl⟩
  rw [update_feedback_found db interaction_id feedback_score old hfind]

/-- The C3 theorem holds at a concrete table and update. -/
theorem update_feedback_changes_only_feedback_witness :
    ∃ rec : Interaction,
      (update_feedback [sampleRow] "a" 5).1 = .ok rec ∧
      rec.feedback = 5 ∧
      rec.interaction_id = sampleRow.interaction_id ∧
      rec.user_query = sampleRow.user_query ∧
      rec.bot_response = sampleRow.bot_response ∧
      rec.timestamp = sampleRow.timestamp ∧
      rec.processed_for_training = sampleRow.processed_for_training :=
  update_feedback_changes_only_feedback [sampleRow] "a" 5 sampleRow (by decide)

/-- C4: on an id matching no stored record, both update operations return
the 404 not-found error and leave the table exactly as it was. -/
theorem updates_unknown_id_not_found (db : List Interaction)
    (interaction_id : String) (feedback_score : Int) (flag : Bool)
    (h : interaction_id ∉ db.map Interaction.interaction_id) :
    update_feedback db interaction_id feedback_score =
      (.error ⟨404, "Interaction not found."⟩, db) ∧
    mark_as_processed db interaction_id flag =
      (.error ⟨404, "Interaction not found."⟩, db) := by
  have hnone := find?_matchesId_eq_none h
  have hfb : ∀ rec : Interaction, (rec.interaction_id == interaction_id) = false →
      (if rec.interaction_id == interaction_id then
        { rec with feedback := feedback_score } else rec) = rec := by
    intro rec hrec
    simp [hrec]
  have hpt : ∀ rec : Interaction, (rec.interaction_id == interaction_id) = false →
      (if rec.interaction_id == interaction_id then
        { rec with processed_for_training := flag } else rec) = rec := by
    intro rec hrec
    simp [hrec]
  have hmapfb := map_eq_self_of_find?_none interaction_id _ hfb db hnone
  have hmappt := map_eq_self_of_find?_none interaction_id _ hpt db hnone
  constructor
  · simp only [update_feedback]
    rw [hmapfb, hnone]
  · simp only [mark_as_processed]
    rw [hmappt, hnone]

/-- The C4 theorem holds at a concrete table and unknown id. -/
theorem updates_unknown_id_not_found_witness :
    update_feedback [sampleRow] "b" 5 =
      (.error ⟨404, "Interaction not found."⟩, [sampleRow]) ∧
    mark_as_processed [sampleRow] "b" true =
      (.error ⟨404, "Interaction not found."⟩, [sampleRow]) :=
  updates_unknown_id_not_found [sampleRow] "b" 5 true (by decide)

/-- C6: marking an existing record processed sets only its
processed_for_training field: all other columns of every row are
untouched, every row whose id differs from the target is preserved
verbatim (its processed_for_training included) at its position, and a
second call with the same flag returns the same response and the same
table as the first. -/
theorem mark_as_processed_only_flag_and_idempotent (db : List Interaction)
    (interaction_id : String) (flag : Bool) (old : Interaction)
    (hfind : db.find? (matchesId interaction_id) = some old) :
    (mark_as_processed db interaction_id flag).1 =
      .ok { old with processed_for_training := flag } ∧
    (mark_as_processed db interaction_id flag).2.map Interaction.interaction_id =
      db.map Interaction.interaction_id ∧
    (mark_as_processed db interaction_id flag).2.map Interaction.user_query =
      db.map Interaction.user_query ∧
    (mark_as_processed db interaction_id flag).2.map Interaction.bot_response =
      db.map Interaction.bot_response ∧
    (mark_as_processed db interaction_id flag).2.map Interaction.feedback =
      db.map Interaction.feedback ∧
    (mark_as_processed db interaction_id flag).2.map Interaction.timestamp =
      db.map Interaction.timestamp ∧
    mark_as_processed (mark_as_processed db interaction_id flag).2 interaction_id flag =
      mark_as_processed db interaction_id flag ∧
    ∀ (j : Nat) (other : Interaction), db[j]? = some other →
      other.interaction_id ≠ interaction_id →
      (mark_as_processed db interaction_id flag).2[j]? = some other := by
  have hframe : ∀ (j : Nat) (other : Interaction), db[j]? = some other →
      other.interaction_id ≠ interaction_id →
      (mark_as_processed db interaction_id flag).2[j]? = some other := by
    intro j other hj hne
    rw [mark_as_processed_snd, List.getElem?_map, hj]
    simp [hne]
  have hcall := mark_as_processed_found db interaction_id flag old hfind
  have hf : ∀ r : Interaction,
      ((if r.interaction_id == interaction_id then
        { r with processed_for_training := flag } else r) :
        Interaction).interaction_id = r.interaction_id := by
    intro r
    by_cases h : r.interaction_id == interaction_id <;> simp [h]
  have hmap := find?_matchesId_map interaction_id _ hf db
  have hfind2 : (db.map (fun rec => if rec.interaction_id == interaction_id then
      { rec with processed_for_training := flag } else rec)).find?
        (matchesId interaction_id) =
      some (if old.interaction_id == interaction_id then
        { old with processed_for_training := flag } else old) := by
    rw [hmap, hfind]
    rfl
  have hold := List.find?_some hfind
  simp only [matchesId] at hold
  refine ⟨by rw [hcall], ?_, ?_, ?_, ?_, ?_, ?_, hframe⟩
  all_goals rw [hcall]
  · simp only [List.map_map]
    apply congrArg (fun g => List.map g db)
    funext r
    by_cases h : r.interaction_id = interaction_id <;> simp [h]
  · simp only [List.map_map]
    apply congrArg (fun g => List.map g db)
    funext r
    by_cases h : r.interaction_id = interaction_id <;> simp [h]
  · simp only [List.map_map]
    apply congrArg (fun g => List.map g db)
    funext r
    by_cases h : r.interaction_id = interaction_id <;> simp [h]
  · simp only [List.map_map]
    apply congrArg (fun g => List.map g db)
    funext r
    by_cases h : r.interaction_id = interaction_id <;> simp [h]
  · simp only [List.map_map]
    apply congrArg (fun g => List.map g db)
    funext r
    by_cases h : r.interaction_id = interaction_id <;> simp [h]
  · rw [mark_as_processed_found _ interaction_id flag
      (if old.interaction_id == interaction_id then
        { old with processed_for_training := flag } else old) hfind2]
    simp only [hold, if_true]
    refine Prod.ext ?_ ?_
    · rfl
    · simp only [List.map_map]
      apply congrArg (fun g => List.map g db)
      funext r
      by_cases h : r.interaction_id = interaction_id <;> simp [h]

/-- The C6 theorem holds at a concrete table and record. -/
theorem mark_as_processed_only_flag_and_idempotent_witness :
    (mark_as_processed [sampleRow] "a" true).1 =
      .ok { sampleRow with processed_for_training := true } ∧
    (mark_as_processed [sampleRow] "a" true).2.map Interaction.interaction_id =
      [sampleRow].map Interaction.interaction_id ∧
    (mark_as_processed [sampleRow] "a" true).2.map Interaction.user_query =
      [sampleRow].map Interaction.user_query ∧
    (mark_as_processed [sampleRow] "a" true).2.map Interaction.bot_response =
      [sampleRow].map Interaction.bot_response ∧
    (mark_as_processed [sampleRow] "a" true).2.map Interaction.feedback =
      [sampleRow].map Interaction.feedback ∧
    (mark_as_processed [sampleRow] "a" true).2.map Interaction.timestamp =
      [sampleRow].map Interaction.timestamp ∧
    mark_as_processed (mark_as_processed [sampleRow] "a" true).2 "a" true =
      mark_as_processed [sampleRow] "a" true ∧
    ∀ (j : Nat) (other : Interaction), [sampleRow][j]? = some other →
      other.interaction_id ≠ "a" →
      (mark_as_processed [sampleRow] "a" true).2[j]? = some other :=
  mark_as_processed_only_flag_and_idempotent [sampleRow] "a" true sampleRow (by decide)

/-- C10: both update operations leave every row whose id differs from the
target completely unchanged, at its original position. -/
theorem updates_preserve_other_rows (db : List Interaction)
    (interaction_id : String) (feedback_score : Int) (flag : Bool)
    (j : Nat) (rec : Interaction)
    (hj : db[j]? = some rec) (hne : rec.interaction_id ≠ interaction_id) :
    (update_feedback db interaction_id feedback_score).2[j]? = some rec ∧
    (mark_as_processed db interaction_id flag).2[j]? = some rec := by
  constructor
  · rw [update_feedback_snd, List.getElem?_map, hj]
    simp [hne]
  · rw [mark_as_processed_snd, List.getElem?_map, hj]
    simp [hne]

/-- The C10 theorem holds at a concrete table, row and foreign target id. -/
theorem updates_preserve_other_rows_witness :
    (update_feedback [sampleRow] "b" 5).2[0]? = some sampleRow ∧
    (mark_as_processed [sampleRow] "b" true).2[0]? = some sampleRow :=
  updates_preserve_other_rows [sampleRow] "b" 5 true 0 sampleRow (by decide) (by decide)

/-- C1: when the stored ids all come from earlier UUID draws and the new
masked random draw differs from every earlier one, the create operation
returns a record whose id is non-empty and distinct from every previously
generated id, whose feedback is 0, whose processed_for_training is false,
and which carries the caller-supplied strings. -/
theorem create_returns_fresh_defaulted_record (db : List Interaction)
    (user_query bot_response : String) (prevRands : List Nat) (rand now : Nat)
    (hdb : ∀ rec ∈ db, rec.interaction_id ∈ prevRands.map uuid4String)
    (hrand : ∀ p ∈ prevRands, uuid4Nibbles p ≠ uuid4Nibbles rand) :
    ∃ rec : Interaction,
      (create_interaction db user_query bot_response rand now).1 = .ok rec ∧
      rec.interaction_id ≠ "" ∧
      rec.interaction_id ∉ prevRands.map uuid4String ∧
      rec.feedback = 0 ∧
      rec.processed_for_training = false ∧
      rec.user_query = user_query ∧
      rec.bot_response = bot_response := by
  have hnotPrev : uuid4String rand ∉ prevRands.map uuid4String := by
    intro hmem
    obtain ⟨p, hp, hEq⟩ := List.mem_map.mp hmem
    exact hrand p hp (uuid4String_inj hEq)
  have hfresh : uuid4String rand ∉ db.map Interaction.interaction_id := by
    intro hmem
    obtain ⟨rec, hrec, hEq⟩ := List.mem_map.mp hmem
    exact hnotPrev (hEq ▸ hdb rec hrec)
  refine ⟨newRow user_query bot_response rand now, ?_,
    uuid4String_ne_empty rand, hnotPrev, rfl, rfl, rfl, rfl⟩
  rw [create_interaction_fresh db user_query bot_response rand now hfresh]

/-- The C1 theorem holds at a concrete create request on the empty table. -/
theorem create_returns_fresh_defaulted_record_witness :
    ∃ rec : Interaction,
      (create_interaction [] "hi" "hello" 0 0).1 = .ok rec ∧
      rec.interaction_id ≠ "" ∧
      rec.interaction_id ∉ ([] : List Nat).map uuid4String ∧
      rec.feedback = 0 ∧
      rec.processed_for_training = false ∧
      rec.user_query = "hi" ∧
      rec.bot_response = "hello" :=
  create_returns_fresh_defaulted_record [] "hi" "hello" [] 0 0
    (by simp) (by simp)

/-- C9: with a fresh generated id, the create operation raises its 500
exactly when the post-insert read-back finds no row; since the inserted
row is present, the read-back always finds one, the error branch is
unreachable, and the full created record is returned. -/
theorem create_500_iff_readback_missing (db : List Interaction)
    (user_query bot_response : String) (rand now : Nat)
    (hfresh : uuid4String rand ∉ db.map Interaction.interaction_id) :
    (((create_interaction db user_query bot_response rand now).1 =
        .error ⟨500, "Failed to create or retrieve interaction."⟩) ↔
      (db ++ [newRow user_query bot_response rand now]).find?
        (matchesId (uuid4String rand)) = none) ∧
    (db ++ [newRow user_query bot_response rand now]).find?
      (matchesId (uuid4String rand)) ≠ none ∧
    (create_interaction db user_query bot_response rand now).1 =
      .ok (newRow user_query bot_response rand now) := by
  have hrow : matchesId (uuid4String rand)
      (newRow user_query bot_response rand now) = true := by
    simp [matchesId, newRow]
  have hsome : (db ++ [newRow user_query bot_response rand now]).find?
      (matchesId (uuid4String rand)) =
      some (newRow user_query bot_response rand now) := by
    rw [List.find?_append, find?_matchesId_eq_none hfresh, Option.none_or,
      List.find?_cons_of_pos _ hrow]
  have hok : (create_interaction db user_query bot_response rand now).1 =
      .ok (newRow user_query bot_response rand now) := by
    rw [create_interaction_fresh db user_query bot_response rand now hfresh]
  refine ⟨⟨fun hErr => ?_, fun hNone => ?_⟩, by simp [hsome], hok⟩
  · rw [hok] at hErr
    exact absurd hErr (by simp)
  · rw [hsome] at hNone
    exact absurd hNone (by simp)

/-- The C9 theorem holds at a concrete create request on the empty table. -/
theorem create_500_iff_readback_missing_witness :
    (((create_interaction [] "q" "r" 0 0).1 =
        .error ⟨500, "Failed to create or retrieve interaction."⟩) ↔
      (([] : List Interaction) ++ [newRow "q" "r" 0 0]).find?
        (matchesId (uuid4String 0)) = none) ∧
    (([] : List Interaction) ++ [newRow "q" "r" 0 0]).find?
      (matchesId (uuid4String 0)) ≠ none ∧
    (create_interaction [] "q" "r" 0 0).1 = .ok (newRow "q" "r" 0 0) :=
  create_500_iff_readback_missing [] "q" "r" 0 0 (by simp)

lemma applyOp_preserves (db : List Interaction) (op : Op) (rec : Interaction)
    (h : rec ∈ db) :
    ∃ rec2 ∈ applyOp db op, rec2.interaction_id = rec.interaction_id ∧
      rec2.user_query = rec.user_query ∧ rec2.bot_response = rec.bot_response ∧
      rec2.timestamp = rec.timestamp := by
  cases op with
  | create user_query bot_response rand now =>
    refine ⟨rec, ?_, rfl, rfl, rfl, rfl⟩
    simp only [applyOp, create_interaction_snd]
    exact List.mem_append_left _ h
  | list feedback processed_for_training =>
    exact ⟨rec, h, rfl, rfl, rfl, rfl⟩
  | updateFeedback interaction_id feedback_score =>
    refine ⟨if rec.interaction_id == interaction_id then
      { rec with feedback := feedback_score } else rec, ?_, ?_, ?_, ?_, ?_⟩
    · simp only [applyOp, update_feedback_snd]
      exact List.mem_map_of_mem _ h
    all_goals by_cases hc : rec.interaction_id = interaction_id <;> simp [hc]
  | markProcessed interaction_id flag =>
    refine ⟨if rec.interaction_id == interaction_id then
      { rec with processed_for_training := flag } else rec, ?_, ?_, ?_, ?_, ?_⟩
    · simp only [applyOp, mark_as_processed_snd]
      exact List.mem_map_of_mem _ h
    all_goals by_cases hc : rec.interaction_id = interaction_id <;> simp [hc]

/-- C7: no sequence of API calls ever deletes a record: every record
stored before the calls is still stored afterwards with the same id,
user_query, bot_response and timestamp (only feedback and
processed_for_training may have changed). -/
theorem records_never_deleted (db : List Interaction) (ops : List Op)
    (rec : Interaction) (h : rec ∈ db) :
    ∃ rec2 ∈ applyOps db ops, rec2.interaction_id = rec.interaction_id ∧
      rec2.user_query = rec.user_query ∧ rec2.bot_response = rec.bot_response ∧
      rec2.timestamp = rec.timestamp := by
  induction ops generalizing db rec with
  | nil => exact ⟨rec, h, rfl, rfl, rfl, rfl⟩
  | cons op rest ih =>
    obtain ⟨rec1, h1, e1, e2, e3, e4⟩ := applyOp_preserves db op rec h
    obtain ⟨rec2, h2, f1, f2, f3, f4⟩ := ih (applyOp db op) rec1 h1
    exact ⟨rec2, h2, f1.trans e1, f2.trans e2, f3.trans e3, f4.trans e4⟩

/-- The C7 theorem holds at a concrete table and call sequence. -/
theorem records_never_deleted_witness :
    ∃ rec2 ∈ applyOps [sampleRow] [Op.updateFeedback "a" 5, Op.markProcessed "a" true],
      rec2.interaction_id = sampleRow.interaction_id ∧
      rec2.user_query = sampleRow.user_query ∧
      rec2.bot_response = sampleRow.bot_response ∧
      rec2.timestamp = sampleRow.timestamp :=
  records_never_deleted [sampleRow] [Op.updateFeedback "a" 5, Op.markProcessed "a" true]
    sampleRow (by simp)

end InteractionsService
